import Mathlib

/-!
Verification development for the FleetPulse agentic fleet monitor.

The frontend data model (Alert, AlertSeverity, Vehicle, the monitor status
view and the polling hook) is embedded from the TypeScript sources under
src/frontend.  The backend monitor service (pattern tracker, rule engine,
alert store, scheduler tick) is not present in the source tree; those
definitions are modelled from the specification, as marked on each one.
Times are natural numbers (seconds); fractional quantities use Rat.
-/

namespace FleetPulse

/-- Severity tiers, from src/frontend/src/types/fleet.ts: AlertSeverity is
the union of exactly the four literals low, medium, high, critical. -/
inductive AlertSeverity where
  | low
  | medium
  | high
  | critical
deriving DecidableEq, Repr

/-- Ordinal rank of a severity tier: low < medium < high < critical. -/
def AlertSeverity.rank : AlertSeverity → Nat
  | .low => 0
  | .medium => 1
  | .high => 2
  | .critical => 3

/-- Vehicle status, from src/frontend/src/types/fleet.ts: VehicleStatus. -/
inductive VehicleStatus where
  | active
  | idle
  | parked
  | offline
deriving DecidableEq, Repr

/-- Vehicle position, from src/frontend/src/types/fleet.ts: VehiclePosition. -/
structure VehiclePosition where
  latitude : Rat
  longitude : Rat
  bearing : Rat
  speed : Rat
deriving DecidableEq, Repr

/-- A vehicle snapshot supplied each tick, from
src/frontend/src/types/fleet.ts: Vehicle (id, name, status, position,
location_name, last_contact); the last-contact timestamp is a numeric time. -/
structure VehicleSnapshot where
  id : String
  name : String
  status : VehicleStatus
  position : Option VehiclePosition
  location_name : Option String
  last_contact : Option Nat
deriving DecidableEq, Repr

/-- Modelled from the spec: LocationInfo (name, address, geographic center,
expected vehicle capacity); the backend source holding it is missing. -/
structure LocationInfo where
  name : String
  address : String
  latitude : Rat
  longitude : Rat
  expected_capacity : Nat
deriving DecidableEq, Repr

/-- An emitted alert, from src/frontend/src/types/fleet.ts: Alert.  Exactly
the fields id, vehicle_id, vehicle_name, alert_type, severity, message,
timestamp, acknowledged; the identifier is modelled as a monotonic Nat and
the timestamp as a numeric time. -/
structure Alert where
  id : Nat
  vehicle_id : String
  vehicle_name : String
  alert_type : String
  severity : AlertSeverity
  message : String
  timestamp : Nat
  acknowledged : Bool
deriving DecidableEq, Repr

/-- Modelled from the spec: PatternState (last-check timestamp, checks-run
counter, total/active vehicle counts, per-location counts, rolling baseline
activity level); the backend source holding it is missing. -/
structure PatternState where
  last_check : Option Nat
  checks_run : Nat
  total_vehicles : Nat
  active_vehicles : Nat
  location_vehicle_counts : List (String × Nat)
  baseline_active_fraction : Rat
deriving DecidableEq, Repr

/-- Modelled from the spec: per-rule configuration (enabled flag, numeric
threshold, cooldown window in seconds); the backend source is missing. -/
structure RuleConfig where
  enabled : Bool
  threshold : Rat
  cooldown : Nat
deriving DecidableEq, Repr

/-- Modelled from the spec: the process-wide monitor configuration: one
RuleConfig per rule, the baseline smoothing factor alpha (default 0.2), the
alert store bound (default 100) and the night window for the after-hours
rule (default 23:00 to 05:00). -/
structure MonitorConfig where
  speed : RuleConfig
  idle : RuleConfig
  offroute : RuleConfig
  afterhours : RuleConfig
  pattern : RuleConfig
  imbalance : RuleConfig
  alpha : Rat
  store_bound : Nat
  night_start : Nat
  night_end : Nat
deriving DecidableEq, Repr

/-- Modelled from the spec: default configuration (speed threshold 80,
cooldown 5 minutes per rule, alpha 0.2, store bound 100, night window
23:00 to 05:00). -/
def defaultConfig : MonitorConfig :=
  { speed := { enabled := true, threshold := 80, cooldown := 300 }
    idle := { enabled := true, threshold := 900, cooldown := 300 }
    offroute := { enabled := true, threshold := 1, cooldown := 300 }
    afterhours := { enabled := true, threshold := 0, cooldown := 300 }
    pattern := { enabled := true, threshold := 3/10, cooldown := 300 }
    imbalance := { enabled := true, threshold := 2, cooldown := 300 }
    alpha := 1/5
    store_bound := 100
    night_start := 23
    night_end := 5 }

/-- Modelled from the spec: a candidate alert produced by a rule before the
store assigns it an id and timestamp. -/
structure Candidate where
  vehicle_id : String
  vehicle_name : String
  alert_type : String
  severity : AlertSeverity
  message : String
deriving DecidableEq, Repr

/-- Modelled from the spec: severity of the speed-anomaly rule as a function
of threshold and speed: none below the threshold, otherwise low at the
threshold, medium at threshold plus 20 percent, high at plus 50 percent,
critical at plus 100 percent. -/
def speedSeverity (t s : Rat) : Option AlertSeverity :=
  if s < t then none
  else if 2 * t ≤ s then some .critical
  else if 3 * t / 2 ≤ s then some .high
  else if 6 * t / 5 ≤ s then some .medium
  else some .low

/-- Modelled from the spec: the speed-anomaly candidate for one vehicle, if
its position carries a speed at or above the threshold. -/
def speedCandidate (t : Rat) (v : VehicleSnapshot) : Option Candidate :=
  v.position.bind fun pos =>
    (speedSeverity t pos.speed).map fun sev =>
      { vehicle_id := v.id, vehicle_name := v.name,
        alert_type := "speed_anomaly", severity := sev,
        message := "Speed anomaly: " ++ v.name }

/-- Modelled from the spec: the speed-anomaly rule, one candidate per
offending vehicle per tick. -/
def speedRule (cfg : RuleConfig) (vs : List VehicleSnapshot) : List Candidate :=
  if cfg.enabled then vs.filterMap (speedCandidate cfg.threshold) else []

/-- Number of vehicles assigned to a named location. -/
def countAtLocation (vs : List VehicleSnapshot) (name : String) : Nat :=
  (vs.filter (fun v => v.location_name == some name)).length

/-- Number of vehicles with status active. -/
def activeCount (vs : List VehicleSnapshot) : Nat :=
  (vs.filter (fun v => v.status == .active)).length

/-- Fraction of vehicles that are active; zero for an empty snapshot. -/
def activeFraction (vs : List VehicleSnapshot) : Rat :=
  if vs.length = 0 then 0 else (activeCount vs : Rat) / (vs.length : Rat)

/-- Modelled from the spec: the Pattern Tracker update, run once per
successful tick.  Sets the last-check timestamp, increments the checks-run
counter, recomputes total/active counts and the per-location map, and folds
the current active fraction into the rolling baseline with
new = alpha * current + (1 - alpha) * old.  Total on every input. -/
def updatePatterns (alpha : Rat) (now : Nat) (vs : List VehicleSnapshot)
    (ls : List LocationInfo) (p : PatternState) : PatternState :=
  { last_check := some now
    checks_run := p.checks_run + 1
    total_vehicles := vs.length
    active_vehicles := activeCount vs
    location_vehicle_counts := ls.map (fun l => (l.name, countAtLocation vs l.name))
    baseline_active_fraction :=
      alpha * activeFraction vs + (1 - alpha) * p.baseline_active_fraction }

/-- Modelled from the spec: elapsed idle time of a vehicle, measured from
its last-contact timestamp to the tick time recorded in PatternState (the
source of the duration is not pinned down by the spec). -/
def idleDuration (p : PatternState) (v : VehicleSnapshot) : Nat :=
  match p.last_check, v.last_contact with
  | some now, some t => now - t
  | _, _ => 0

/-- Modelled from the spec: the excessive-idle rule; fires for a vehicle
idle (or active but stationary) past the threshold duration, with severity
in three bands of the elapsed duration (1x, 2x, 3x the threshold). -/
def idleCandidate (t : Rat) (p : PatternState) (v : VehicleSnapshot) : Option Candidate :=
  let stationary :=
    v.status == .idle ||
      (v.status == .active && (v.position.map (fun q => q.speed == 0)).getD false)
  let d : Rat := (idleDuration p v : Rat)
  if stationary && decide (t < d) then
    some { vehicle_id := v.id, vehicle_name := v.name,
           alert_type := "excessive_idle",
           severity := if 3 * t < d then .high else if 2 * t < d then .medium else .low,
           message := "Excessive idle: " ++ v.name }
  else none

/-- Modelled from the spec: the excessive-idle rule over the snapshot. -/
def idleRule (cfg : RuleConfig) (p : PatternState) (vs : List VehicleSnapshot) : List Candidate :=
  if cfg.enabled then vs.filterMap (idleCandidate cfg.threshold p) else []

/-- Squared planar distance between a position and a location center. -/
def dist2 (pos : VehiclePosition) (l : LocationInfo) : Rat :=
  (pos.latitude - l.latitude) ^ 2 + (pos.longitude - l.longitude) ^ 2

/-- Modelled from the spec: the off-route rule; fires when a vehicle's
position is farther than the configured radius from every known location
center, with fixed severity high. -/
def offrouteCandidate (radius : Rat) (ls : List LocationInfo)
    (v : VehicleSnapshot) : Option Candidate :=
  match v.position with
  | none => none
  | some pos =>
    if ls.all (fun l => decide (radius ^ 2 < dist2 pos l)) && !ls.isEmpty then
      some { vehicle_id := v.id, vehicle_name := v.name,
             alert_type := "off_route", severity := .high,
             message := "Off route: " ++ v.name }
    else none

/-- Modelled from the spec: the off-route rule over the snapshot. -/
def offrouteRule (cfg : RuleConfig) (ls : List LocationInfo)
    (vs : List VehicleSnapshot) : List Candidate :=
  if cfg.enabled then vs.filterMap (offrouteCandidate cfg.threshold ls) else []

/-- Hour of day of a timestamp counted in seconds. -/
def hourOf (t : Nat) : Nat := t / 3600 % 24

/-- Whether an hour falls in the configured night window (wrapping). -/
def inNightWindow (cfg : MonitorConfig) (h : Nat) : Bool :=
  if cfg.night_start ≤ cfg.night_end then
    cfg.night_start ≤ h && h < cfg.night_end
  else
    cfg.night_start ≤ h || h < cfg.night_end

/-- Modelled from the spec: the after-hours rule; fires for an active
vehicle whose timestamp falls in the night window, severity medium,
escalated to high when the speed rule also fires for the same vehicle. -/
def afterhoursCandidate (cfg : MonitorConfig) (v : VehicleSnapshot) : Option Candidate :=
  match v.last_contact with
  | none => none
  | some t =>
    if v.status == .active && inNightWindow cfg (hourOf t) then
      some { vehicle_id := v.id, vehicle_name := v.name,
             alert_type := "after_hours",
             severity :=
               if (speedCandidate cfg.speed.threshold v).isSome then .high else .medium,
             message := "After hours activity: " ++ v.name }
    else none

/-- Modelled from the spec: the after-hours rule over the snapshot. -/
def afterhoursRule (cfg : MonitorConfig) (vs : List VehicleSnapshot) : List Candidate :=
  if cfg.afterhours.enabled then vs.filterMap (afterhoursCandidate cfg) else []

/-- Absolute value on Rat written with max, kept executable. -/
def ratAbs (x : Rat) : Rat := max x (-x)

/-- Modelled from the spec: the fleet-wide pattern-deviation rule; emits one
fleet-level alert (sentinel vehicle id) when the current active fraction
deviates from the rolling baseline by more than the configured band. -/
def patternRule (cfg : RuleConfig) (p : PatternState)
    (vs : List VehicleSnapshot) : List Candidate :=
  if cfg.enabled && decide (cfg.threshold < ratAbs (activeFraction vs - p.baseline_active_fraction)) then
    [{ vehicle_id := "fleet", vehicle_name := "Fleet",
       alert_type := "pattern_deviation", severity := .medium,
       message := "Fleet activity deviates from baseline" }]
  else []

/-- Modelled from the spec: the location inventory-imbalance rule; one alert
per location whose vehicle count is zero or exceeds its expected capacity by
more than the configured factor, with a location-scoped sentinel id. -/
def imbalanceCandidate (factor : Rat) (vs : List VehicleSnapshot)
    (l : LocationInfo) : Option Candidate :=
  let n := countAtLocation vs l.name
  if n = 0 || decide ((l.expected_capacity : Rat) * factor < (n : Rat)) then
    some { vehicle_id := "location:" ++ l.name, vehicle_name := l.name,
           alert_type := "location_imbalance", severity := .high,
           message := "Inventory imbalance at " ++ l.name }
  else none

/-- Modelled from the spec: the inventory-imbalance rule over the configured
locations. -/
def imbalanceRule (cfg : RuleConfig) (vs : List VehicleSnapshot)
    (ls : List LocationInfo) : List Candidate :=
  if cfg.enabled then ls.filterMap (imbalanceCandidate cfg.threshold vs) else []

/-- Evaluation-order index of each rule, per the spec's fixed listing. -/
def ruleIndex (tag : String) : Nat :=
  if tag = "speed_anomaly" then 0
  else if tag = "excessive_idle" then 1
  else if tag = "off_route" then 2
  else if tag = "after_hours" then 3
  else if tag = "pattern_deviation" then 4
  else if tag = "location_imbalance" then 5
  else 6

/-- Modelled from the spec: the tie-break ordering on candidates: severity
descending, then rule evaluation order, then entity identifier ascending. -/
def candLE (a b : Candidate) : Bool :=
  if a.severity.rank ≠ b.severity.rank then b.severity.rank < a.severity.rank
  else if ruleIndex a.alert_type ≠ ruleIndex b.alert_type then
    ruleIndex a.alert_type < ruleIndex b.alert_type
  else (compare a.vehicle_id b.vehicle_id) ≠ Ordering.gt

/-- Insertion into a list sorted by a boolean relation. -/
def insertLE (le : Candidate → Candidate → Bool) (x : Candidate) :
    List Candidate → List Candidate
  | [] => [x]
  | y :: ys => if le x y then x :: y :: ys else y :: insertLE le x ys

/-- Insertion sort by a boolean relation. -/
def sortLE (le : Candidate → Candidate → Bool) : List Candidate → List Candidate
  | [] => []
  | x :: xs => insertLE le x (sortLE le xs)

/-- Modelled from the spec: the Rule Engine; evaluates the six rules in
their fixed order against the snapshot and PatternState read at the start of
the tick, and orders the candidates by the tie-break policy.  A pure
function of the snapshot, locations, PatternState and configuration. -/
def evaluateRules (cfg : MonitorConfig) (vs : List VehicleSnapshot)
    (ls : List LocationInfo) (p : PatternState) : List Candidate :=
  sortLE candLE
    (speedRule cfg.speed vs ++ idleRule cfg.idle p vs ++
     offrouteRule cfg.offroute ls vs ++ afterhoursRule cfg vs ++
     patternRule cfg.pattern p vs ++ imbalanceRule cfg.imbalance vs ls)

/-- Modelled from the spec: the Alert Store, a bounded, time-ordered
collection of alerts kept oldest-first, with a monotonic id counter. -/
structure AlertStore where
  alerts : List Alert
  next_id : Nat
deriving DecidableEq, Repr

/-- The empty alert store at process start. -/
def emptyStore : AlertStore := { alerts := [], next_id := 0 }

/-- Modelled from the spec: per-rule cooldown windows read off the monitor
configuration by rule tag. -/
def cooldownOf (cfg : MonitorConfig) (tag : String) : Nat :=
  if tag = "speed_anomaly" then cfg.speed.cooldown
  else if tag = "excessive_idle" then cfg.idle.cooldown
  else if tag = "off_route" then cfg.offroute.cooldown
  else if tag = "after_hours" then cfg.afterhours.cooldown
  else if tag = "pattern_deviation" then cfg.pattern.cooldown
  else if tag = "location_imbalance" then cfg.imbalance.cooldown
  else 300

/-- Materialize a candidate into an Alert with the given id and timestamp;
the acknowledged flag starts false. -/
def mkAlert (n : Nat) (now : Nat) (c : Candidate) : Alert :=
  { id := n, vehicle_id := c.vehicle_id, vehicle_name := c.vehicle_name,
    alert_type := c.alert_type, severity := c.severity,
    message := c.message, timestamp := now, acknowledged := false }

/-- Whether the store holds an unexpired alert with the candidate's
cooldown key (vehicle id or sentinel, rule tag) at time now. -/
def hasUnexpired (cd : String → Nat) (now : Nat) (s : AlertStore) (c : Candidate) : Bool :=
  s.alerts.any (fun a =>
    a.vehicle_id == c.vehicle_id && a.alert_type == c.alert_type &&
      decide (now < a.timestamp + cd c.alert_type))

/-- Modelled from the spec: merge one candidate: dropped when an unexpired
alert with the same (entity, rule) key exists, otherwise appended as a new
Alert with a fresh id and the tick timestamp. -/
def mergeOne (cd : String → Nat) (now : Nat) (s : AlertStore) (c : Candidate) : AlertStore :=
  if hasUnexpired cd now s c then s
  else { alerts := s.alerts ++ [mkAlert s.next_id now c], next_id := s.next_id + 1 }

/-- Merge a candidate list, in order, without trimming. -/
def mergeAll (cd : String → Nat) (now : Nat) (s : AlertStore) (cs : List Candidate) : AlertStore :=
  cs.foldl (mergeOne cd now) s

/-- Modelled from the spec: trim the store to its bound by removing oldest
entries first (the front of the oldest-first list). -/
def trimStore (bound : Nat) (s : AlertStore) : AlertStore :=
  { s with alerts := s.alerts.drop (s.alerts.length - bound) }

/-- Modelled from the spec: AlertStore.merge: cooldown-filtered append of
each candidate followed by trimming to the bound, oldest entries first. -/
def AlertStore.merge (cd : String → Nat) (bound : Nat) (now : Nat)
    (s : AlertStore) (cs : List Candidate) : AlertStore :=
  trimStore bound (mergeAll cd now s cs)

/-- Modelled from the spec: AlertStore.list: the stored alerts
most-recent-first. -/
def AlertStore.list (s : AlertStore) : List Alert := s.alerts.reverse

/-- Set the acknowledged flag of the alert with the given id. -/
def setAck (n : Nat) (a : Alert) : Alert :=
  if a.id = n then { a with acknowledged := true } else a

/-- Modelled from the spec: acknowledge(alert_id): sets acknowledged=true on
the matching alert; idempotent; a no-op success when the id is unknown.  The
Bool is the reported success. -/
def acknowledge (s : AlertStore) (n : Nat) : AlertStore × Bool :=
  ({ s with alerts := s.alerts.map (setAck n) }, true)

/-- Modelled from the spec: the whole monitor state owned by the scheduler:
PatternState plus the Alert Store. -/
structure MonitorState where
  patterns : PatternState
  store : AlertStore
deriving DecidableEq, Repr

/-- The monitor state at process start: zero checks, empty store. -/
def initialState : MonitorState :=
  { patterns := { last_check := none, checks_run := 0, total_vehicles := 0,
                  active_vehicles := 0, location_vehicle_counts := [],
                  baseline_active_fraction := 0 }
    store := emptyStore }

/-- Modelled from the spec: one tick.  The fetch result is none when the
Fleet Snapshot Provider failed; a failed tick still counts as checked (the
checks-run counter increments and the last-check timestamp updates) but
contributes zero new alerts; a successful tick updates the pattern state,
evaluates the rules and merges the candidates into the store. -/
def tick (cfg : MonitorConfig) (now : Nat)
    (fetch : Option (List VehicleSnapshot × List LocationInfo))
    (st : MonitorState) : MonitorState :=
  match fetch with
  | none =>
    { st with patterns :=
        { st.patterns with checks_run := st.patterns.checks_run + 1,
                           last_check := some now } }
  | some (vs, ls) =>
    let p := updatePatterns cfg.alpha now vs ls st.patterns
    let cands := evaluateRules cfg vs ls p
    { patterns := p,
      store := AlertStore.merge (cooldownOf cfg) cfg.store_bound now st.store cands }

/-- A sequence of ticks, each given by its time and fetch result. -/
def runTicks (cfg : MonitorConfig) (st : MonitorState)
    (ts : List (Nat × Option (List VehicleSnapshot × List LocationInfo))) : MonitorState :=
  ts.foldl (fun s t => tick cfg t.1 t.2 s) st

/-- The state of the polling hook from src/unnamed/part_011: useFetch keeps
data, loading and error; data starts null, loading true, error null. -/
structure FetchState (T : Type) where
  data : Option T
  loading : Bool
  error : Option String
deriving Repr

/-- The initial hook state from src/unnamed/part_011: useFetch. -/
def initialFetchState (T : Type) : FetchState T :=
  { data := none, loading := true, error := none }

/-- One fetchData round from src/unnamed/part_011: useFetch.  On success the
response body replaces data and error resets to null; on failure only error
is set (data is untouched); loading clears in both branches. -/
def fetchStep (T : Type) (st : FetchState T) (result : Except String T) : FetchState T :=
  match result with
  | .ok v => { data := some v, loading := false, error := none }
  | .error e => { st with error := some e, loading := false }

/-- The status payload served to readers: running flag, total alerts and the
PatternState, per the spec's status interface. -/
structure StatusView where
  running : Bool
  total_alerts : Nat
  patterns : PatternState
deriving DecidableEq, Repr

/-- Modelled from the spec: the status read path; a total function of the
monitor state, so a read after a failed tick cannot throw. -/
def statusOf (running : Bool) (st : MonitorState) : StatusView :=
  { running := running, total_alerts := st.store.alerts.length,
    patterns := st.patterns }

/-- The patterns object of the dashboard's MonitorStatus props, from
src/frontend/src/components/AgenticMonitor.tsx (every field optional). -/
structure PatternsView where
  last_check : Option String
  total_vehicles : Option Nat
  active_vehicles : Option Nat
  alerts_generated : Option Nat
  checks_run : Option Nat
  location_vehicle_counts : Option (List (String × Nat))
deriving DecidableEq, Repr

/-- The empty patterns object the component substitutes for a null status. -/
def emptyPatternsView : PatternsView :=
  { last_check := none, total_vehicles := none, active_vehicles := none,
    alerts_generated := none, checks_run := none,
    location_vehicle_counts := none }

/-- The MonitorStatus props shape from
src/frontend/src/components/AgenticMonitor.tsx. -/
structure MonitorStatusView where
  running : Bool
  total_alerts : Nat
  patterns : PatternsView
deriving DecidableEq, Repr

/-- From AgenticMonitor.tsx line 124: the patterns object is
status.patterns, or the empty object when status is null. -/
def patternsOf (s : Option MonitorStatusView) : PatternsView :=
  match s with
  | none => emptyPatternsView
  | some st => st.patterns

/-- From AgenticMonitor.tsx: the AI Checks KPI renders checks_run with the
nullish fallback 18. -/
def kpiChecksRun (s : Option MonitorStatusView) : Nat :=
  (patternsOf s).checks_run.getD 18

/-- From AgenticMonitor.tsx: the Monitored KPI renders total_vehicles with
the nullish fallback 50. -/
def kpiMonitored (s : Option MonitorStatusView) : Nat :=
  (patternsOf s).total_vehicles.getD 50

/-- From AgenticMonitor.tsx: the Active KPI renders active_vehicles with the
nullish fallback 42. -/
def kpiActive (s : Option MonitorStatusView) : Nat :=
  (patternsOf s).active_vehicles.getD 42

/-- From AgenticMonitor.tsx: the AI Confidence KPI is the fixed literal. -/
def kpiConfidence (s : Option MonitorStatusView) : String :=
  match s with
  | _ => "94%"

/-- Scenario driver: merge the same single candidate once per tick at each
time in the list, as the cooldown property exercises it. -/
def repeatMerge (cd : String → Nat) (bound : Nat) (c : Candidate)
    (s : AlertStore) (ts : List Nat) : AlertStore :=
  ts.foldl (fun st t => AlertStore.merge cd bound t st [c]) s

/-- A sample candidate used to instantiate hypothesis-bearing theorems. -/
def exampleCandidate : Candidate :=
  { vehicle_id := "v1", vehicle_name := "Unit 1",
    alert_type := "speed_anomaly", severity := .low, message := "m" }

/-- A sample one-alert store used to instantiate hypothesis-bearing
theorems. -/
def exampleStore : AlertStore :=
  { alerts := [mkAlert 0 5 exampleCandidate], next_id := 1 }

/-- The scenario vehicle travelling at speed 165. -/
def v165 : VehicleSnapshot :=
  { id := "v1", name := "Unit 1", status := .active,
    position := some { latitude := 36, longitude := -115, bearing := 0, speed := 165 },
    location_name := none, last_contact := some 36000 }

/-- A steady-fleet pattern state for the speed scenario: one active vehicle
and a baseline equal to the current active fraction. -/
def scenarioPatterns : PatternState :=
  { last_check := some 1000, checks_run := 1, total_vehicles := 1,
    active_vehicles := 1, location_vehicle_counts := [],
    baseline_active_fraction := 1 }

/-- The alert-gap condition between an earlier and a later stored alert:
when they share the (entity, rule) cooldown key, their creation times are at
least the rule's cooldown apart. -/
def gapOK (cd : String → Nat) (a b : Alert) : Prop :=
  a.vehicle_id = b.vehicle_id → a.alert_type = b.alert_type →
    a.timestamp + cd a.alert_type ≤ b.timestamp

/-- The cooldown invariant over an oldest-first alert list: every pair of
same-key alerts is separated by at least the rule's cooldown window. -/
def cooldownRespecting (cd : String → Nat) (l : List Alert) : Prop :=
  l.Pairwise (gapOK cd)

theorem tick_checks_run (cfg : MonitorConfig) (now : Nat)
    (f : Option (List VehicleSnapshot × List LocationInfo)) (st : MonitorState) :
    (tick cfg now f st).patterns.checks_run = st.patterns.checks_run + 1 := by
  cases f with
  | none => rfl
  | some p => cases p with
    | mk vs ls => simp [tick, updatePatterns]

/-- C1: every tick, including one whose snapshot fetch failed, increases
checks_run by exactly 1 (so a run of n ticks adds exactly n, never
decreasing, and 5 consecutive provider failures add exactly 5), a failed
tick still updates the last-check timestamp, and a failed tick contributes
zero new alerts (the store is unchanged). -/
theorem checksRunPerTick :
    (∀ (cfg : MonitorConfig) (st : MonitorState)
       (ts : List (Nat × Option (List VehicleSnapshot × List LocationInfo))),
       (runTicks cfg st ts).patterns.checks_run = st.patterns.checks_run + ts.length) ∧
    (∀ (cfg : MonitorConfig) (now : Nat) (st : MonitorState),
       (tick cfg now none st).store = st.store ∧
       (tick cfg now none st).patterns.last_check = some now ∧
       (tick cfg now none st).patterns.checks_run = st.patterns.checks_run + 1) := by
  constructor
  · intro cfg st ts
    induction ts generalizing st with
    | nil => simp [runTicks]
    | cons t ts ih =>
      have h := ih (tick cfg t.1 t.2 st)
      simp only [runTicks, List.foldl_cons] at h ⊢
      rw [h, tick_checks_run, List.length_cons]
      omega
  · intro cfg now st
    exact ⟨rfl, rfl, rfl⟩

/-- C5: the Rule Engine is deterministic: two invocations on equal
snapshots, locations, pattern state and configuration produce the same
candidate list, in the same order, and in particular the same severities. -/
theorem ruleEngineDeterministic :
    ∀ (cfg1 cfg2 : MonitorConfig) (vs1 vs2 : List VehicleSnapshot)
      (ls1 ls2 : List LocationInfo) (p1 p2 : PatternState),
      vs1 = vs2 → ls1 = ls2 → p1 = p2 → cfg1 = cfg2 →
      evaluateRules cfg1 vs1 ls1 p1 = evaluateRules cfg2 vs2 ls2 p2 ∧
      (evaluateRules cfg1 vs1 ls1 p1).map Candidate.severity
        = (evaluateRules cfg2 vs2 ls2 p2).map Candidate.severity := by
  intro cfg1 cfg2 vs1 vs2 ls1 ls2 p1 p2 hv hl hp hc
  subst hv; subst hl; subst hp; subst hc
  exact ⟨rfl, rfl⟩

theorem ruleEngineDeterministic_witness :
    evaluateRules defaultConfig [v165] [] initialState.patterns
      = evaluateRules defaultConfig [v165] [] initialState.patterns ∧
    (evaluateRules defaultConfig [v165] [] initialState.patterns).map Candidate.severity
      = (evaluateRules defaultConfig [v165] [] initialState.patterns).map Candidate.severity :=
  ruleEngineDeterministic defaultConfig defaultConfig [v165] [v165] [] []
    initialState.patterns initialState.patterns rfl rfl rfl rfl

/-- C6: the Pattern Tracker update is total and sets the rolling baseline to
alpha times the current active fraction plus (1 - alpha) times the old
baseline; on an empty snapshot the active fraction is zero, so the baseline
becomes (1 - alpha) times the old value and (for 0 <= alpha <= 1 and a
nonnegative baseline) decays toward zero; the default alpha is 0.2. -/
theorem baselineUpdate :
    ∀ (alpha : Rat) (now : Nat) (vs : List VehicleSnapshot)
      (ls : List LocationInfo) (p : PatternState),
      ((updatePatterns alpha now vs ls p).baseline_active_fraction
          = alpha * activeFraction vs + (1 - alpha) * p.baseline_active_fraction) ∧
      (vs = [] →
        (updatePatterns alpha now vs ls p).baseline_active_fraction
          = (1 - alpha) * p.baseline_active_fraction) ∧
      (vs = [] → 0 ≤ alpha → alpha ≤ 1 → 0 ≤ p.baseline_active_fraction →
        (updatePatterns alpha now vs ls p).baseline_active_fraction
            ≤ p.baseline_active_fraction ∧
          0 ≤ (updatePatterns alpha now vs ls p).baseline_active_fraction) ∧
      defaultConfig.alpha = 1/5 := by
  intro alpha now vs ls p
  refine ⟨rfl, ?_, ?_, rfl⟩
  · intro h
    subst h
    simp [updatePatterns, activeFraction]
  · intro h h0 h1 hb
    subst h
    have hempty : activeFraction [] = 0 := by simp [activeFraction]
    constructor
    · simp only [updatePatterns, hempty, mul_zero, zero_add]
      nlinarith [mul_nonneg h0 hb]
    · simp only [updatePatterns, hempty, mul_zero, zero_add]
      nlinarith [mul_nonneg (sub_nonneg.mpr h1) hb]

theorem baselineUpdate_witness :
    (updatePatterns (1/5) 0 [] [] initialState.patterns).baseline_active_fraction
        = (1 - 1/5) * initialState.patterns.baseline_active_fraction ∧
      (updatePatterns (1/5) 0 [] [] initialState.patterns).baseline_active_fraction
        ≤ initialState.patterns.baseline_active_fraction :=
  ⟨(baselineUpdate (1/5) 0 [] [] initialState.patterns).2.1 rfl,
   ((baselineUpdate (1/5) 0 [] [] initialState.patterns).2.2.1 rfl
      (by norm_num) (by norm_num) (by norm_num [initialState])).1⟩

/-- C9: reads after a failed tick do not throw (they are total functions of
the monitor state) and reflect the last successfully completed tick's data
unchanged: the alerts list, total-alert count and vehicle aggregates are
untouched by a failed tick; in the frontend polling hook a failed fetch
leaves data untouched and only sets error, and a subsequent success stores
the new data and resets error to null. -/
theorem readsAfterFailedTick :
    (∀ (cfg : MonitorConfig) (now : Nat) (st : MonitorState),
       AlertStore.list (tick cfg now none st).store = AlertStore.list st.store ∧
       (statusOf true (tick cfg now none st)).total_alerts
          = (statusOf true st).total_alerts ∧
       (tick cfg now none st).patterns.total_vehicles = st.patterns.total_vehicles ∧
       (tick cfg now none st).patterns.active_vehicles = st.patterns.active_vehicles ∧
       (tick cfg now none st).patterns.baseline_active_fraction
          = st.patterns.baseline_active_fraction) ∧
    (∀ (T : Type) (st : FetchState T) (e : String),
       (fetchStep T st (.error e)).data = st.data ∧
       (fetchStep T st (.error e)).error = some e) ∧
    (∀ (T : Type) (st : FetchState T) (v : T),
       (fetchStep T st (.ok v)).data = some v ∧
       (fetchStep T st (.ok v)).error = none) :=
  ⟨fun _ _ _ => ⟨rfl, rfl, rfl, rfl, rfl⟩,
   fun _ _ _ => ⟨rfl, rfl⟩,
   fun _ _ _ => ⟨rfl, rfl⟩⟩

/-- C10: the dashboard KPI panel substitutes the hardcoded constants 18, 50
and 42 for an omitted checks_run, total_vehicles and active_vehicles
(including when the whole status is null), and renders the fixed literal
94 percent as AI Confidence on every input, so the summary is not a faithful
image of the monitor state when any field is absent. -/
theorem kpiFallbackConstants :
    (∀ s : Option MonitorStatusView, kpiConfidence s = "94%") ∧
    (∀ s : Option MonitorStatusView,
       (patternsOf s).checks_run = none → kpiChecksRun s = 18) ∧
    (∀ s : Option MonitorStatusView,
       (patternsOf s).total_vehicles = none → kpiMonitored s = 50) ∧
    (∀ s : Option MonitorStatusView,
       (patternsOf s).active_vehicles = none → kpiActive s = 42) ∧
    (kpiChecksRun none = 18 ∧ kpiMonitored none = 50 ∧ kpiActive none = 42) := by
  refine ⟨fun s => rfl, ?_, ?_, ?_, ⟨rfl, rfl, rfl⟩⟩
  · intro s h; simp [kpiChecksRun, h]
  · intro s h; simp [kpiMonitored, h]
  · intro s h; simp [kpiActive, h]

theorem kpiFallbackConstants_witness :
    kpiChecksRun none = 18 ∧ kpiMonitored none = 50 ∧ kpiActive none = 42 ∧
      kpiConfidence none = "94%" :=
  ⟨kpiFallbackConstants.2.1 none rfl, kpiFallbackConstants.2.2.1 none rfl,
   kpiFallbackConstants.2.2.2.1 none rfl, kpiFallbackConstants.1 none⟩

theorem setAck_idem (n : Nat) (a : Alert) : setAck n (setAck n a) = setAck n a := by
  by_cases h : a.id = n
  · simp [setAck, h]
  · simp [setAck, h]

theorem setAck_comp (n : Nat) : setAck n ∘ setAck n = setAck n :=
  funext fun a => setAck_idem n a

theorem map_fix {α : Type} (f : α → α) :
    ∀ l : List α, (∀ a ∈ l, f a = a) → l.map f = l := by
  intro l h
  induction l with
  | nil => rfl
  | cons a l ih =>
    simp only [List.map_cons, List.cons.injEq]
    exact ⟨h a (List.mem_cons_self a l), ih fun b hb => h b (List.mem_cons_of_mem a hb)⟩

theorem countP_comp_map {α β : Type} (p : β → Bool) (f : α → β) :
    ∀ l : List α, (l.map f).countP p = l.countP (fun a => p (f a)) := by
  intro l
  induction l with
  | nil => rfl
  | cons a l ih => simp [List.countP_cons, ih]

theorem ackCount (n : Nat) :
    ∀ l : List Alert, (l.map Alert.id).Nodup → (∃ a ∈ l, a.id = n) →
      l.countP (fun a => a.acknowledged) = 0 →
      (l.map (setAck n)).countP (fun a => a.acknowledged) = 1 := by
  intro l
  induction l with
  | nil => intro _ hex _; simp at hex
  | cons a l ih =>
    intro hnd hex h0
    rw [List.map_cons, List.nodup_cons] at hnd
    simp only [List.countP_cons] at h0
    have hacount : l.countP (fun x => x.acknowledged) = 0 := by omega
    have haf : a.acknowledged = false := by
      by_cases hb : a.acknowledged
      · simp [hb] at h0
      · simpa using hb
    rw [List.map_cons, List.countP_cons, countP_comp_map]
    by_cases hid : a.id = n
    · have hzero : l.countP (fun x => (setAck n x).acknowledged) = 0 := by
        rw [List.countP_eq_zero]
        intro x hx
        have hxid : x.id ≠ n := by
          intro hxn
          have hmem : x.id ∈ l.map Alert.id := List.mem_map_of_mem Alert.id hx
          rw [hxn, ← hid] at hmem
          exact hnd.1 hmem
        have hxf : x.acknowledged = false := by
          have := List.countP_eq_zero.mp hacount x hx
          simpa using this
        simp [setAck, hxid, hxf]
      rw [hzero]
      simp [setAck, hid]
    · rcases hex with ⟨b, hb, hbn⟩
      rcases List.mem_cons.mp hb with hba | hbl
      · exact absurd (hba ▸ hbn) hid
      · have hone := ih hnd.2 ⟨b, hbl, hbn⟩ hacount
        rw [countP_comp_map] at hone
        rw [hone]
        simp [setAck, hid, haf]

/-- C7: acknowledge(alert_id) is idempotent and total: it reports success on
every call, acknowledging twice equals acknowledging once, an unknown id is
a no-op success, and on a store with distinct ids, a matching alert and no
prior acknowledgements, acknowledging the same id twice leaves exactly one
acknowledged alert. -/
theorem acknowledgeIdempotent :
    ∀ (s : AlertStore) (n : Nat),
      ((acknowledge s n).2 = true) ∧
      (acknowledge (acknowledge s n).1 n = acknowledge s n) ∧
      ((∀ a ∈ s.alerts, a.id ≠ n) → (acknowledge s n).1 = s) ∧
      ((s.alerts.map Alert.id).Nodup → (∃ a ∈ s.alerts, a.id = n) →
        s.alerts.countP (fun a => a.acknowledged) = 0 →
        (acknowledge (acknowledge s n).1 n).1.alerts.countP
            (fun a => a.acknowledged) = 1) := by
  intro s n
  refine ⟨rfl, ?_, ?_, ?_⟩
  · show (⟨(s.alerts.map (setAck n)).map (setAck n), s.next_id⟩, true)
        = ((⟨s.alerts.map (setAck n), s.next_id⟩ : AlertStore), true)
    rw [List.map_map, setAck_comp]
  · intro h
    show (⟨s.alerts.map (setAck n), s.next_id⟩ : AlertStore) = s
    have : s.alerts.map (setAck n) = s.alerts :=
      map_fix (setAck n) s.alerts fun a ha => by simp [setAck, h a ha]
    rw [this]
  · intro hnd hex h0
    show ((s.alerts.map (setAck n)).map (setAck n)).countP (fun a => a.acknowledged) = 1
    rw [List.map_map, setAck_comp]
    exact ackCount n s.alerts hnd hex h0

theorem acknowledgeIdempotent_witness :
    ((acknowledge exampleStore 0).2 = true) ∧
    (acknowledge (acknowledge exampleStore 0).1 0 = acknowledge exampleStore 0) ∧
    ((acknowledge (acknowledge exampleStore 0).1 0).1.alerts.countP
        (fun a => a.acknowledged) = 1) :=
  ⟨(acknowledgeIdempotent exampleStore 0).1,
   (acknowledgeIdempotent exampleStore 0).2.1,
   (acknowledgeIdempotent exampleStore 0).2.2.2 (by decide)
     ⟨mkAlert 0 5 exampleCandidate, by decide, rfl⟩ (by decide)⟩

theorem mergeOne_cases (cd : String → Nat) (now : Nat) (s : AlertStore) (c : Candidate) :
    mergeOne cd now s c = s ∨
      (hasUnexpired cd now s c = false ∧
        mergeOne cd now s c
          = { alerts := s.alerts ++ [mkAlert s.next_id now c],
              next_id := s.next_id + 1 }) := by
  unfold mergeOne
  by_cases h : hasUnexpired cd now s c
  · left; rw [if_pos h]
  · right
    refine ⟨by simpa using h, ?_⟩
    rw [if_neg h]

theorem mem_mergeAll (cd : String → Nat) (now : Nat) :
    ∀ (cs : List Candidate) (s : AlertStore) (a : Alert),
      a ∈ (mergeAll cd now s cs).alerts →
      a ∈ s.alerts ∨ (a.acknowledged = false ∧ a.timestamp = now) := by
  intro cs
  induction cs with
  | nil => intro s a h; exact Or.inl h
  | cons c cs ih =>
    intro s a h
    rw [mergeAll, List.foldl_cons] at h
    rcases ih (mergeOne cd now s c) a h with hmem | hnew
    · rcases mergeOne_cases cd now s c with hc | ⟨_, hc⟩
      · rw [hc] at hmem; exact Or.inl hmem
      · rw [hc] at hmem
        rcases List.mem_append.mp hmem with hold | hx
        · exact Or.inl hold
        · right
          have : a = mkAlert s.next_id now c := by simpa using hx
          rw [this]; exact ⟨rfl, rfl⟩
    · exact Or.inr hnew

theorem mem_of_mem_trim (bound : Nat) (s : AlertStore) (a : Alert) :
    a ∈ (trimStore bound s).alerts → a ∈ s.alerts := by
  intro h
  exact ((s.alerts.drop_sublist (s.alerts.length - bound)).subset) h

/-- C8: an Alert is exactly its eight fields (two alerts agreeing on id,
vehicle id, vehicle name, alert type, severity, message, timestamp and
acknowledged flag are equal), severity is drawn from exactly the four tiers,
a freshly created alert has acknowledged = false, every alert present after
a merge is either an untouched pre-existing alert or a fresh one (created
unacknowledged at the tick time), and acknowledge changes no field other
than acknowledged. -/
theorem alertFieldModel :
    (∀ a b : Alert, a.id = b.id → a.vehicle_id = b.vehicle_id →
      a.vehicle_name = b.vehicle_name → a.alert_type = b.alert_type →
      a.severity = b.severity → a.message = b.message →
      a.timestamp = b.timestamp → a.acknowledged = b.acknowledged → a = b) ∧
    (∀ s : AlertSeverity, s = .low ∨ s = .medium ∨ s = .high ∨ s = .critical) ∧
    (∀ (n now : Nat) (c : Candidate), (mkAlert n now c).acknowledged = false) ∧
    (∀ (cd : String → Nat) (bound now : Nat) (s : AlertStore)
       (cs : List Candidate) (a : Alert),
       a ∈ (AlertStore.merge cd bound now s cs).alerts →
       a ∈ s.alerts ∨ (a.acknowledged = false ∧ a.timestamp = now)) ∧
    (∀ (s : AlertStore) (n : Nat) (b : Alert),
       b ∈ (acknowledge s n).1.alerts →
       ∃ a, a ∈ s.alerts ∧ b.id = a.id ∧ b.vehicle_id = a.vehicle_id ∧
         b.vehicle_name = a.vehicle_name ∧ b.alert_type = a.alert_type ∧
         b.severity = a.severity ∧ b.message = a.message ∧
         b.timestamp = a.timestamp) := by
  refine ⟨?_, ?_, fun _ _ _ => rfl, ?_, ?_⟩
  · intro a b h1 h2 h3 h4 h5 h6 h7 h8
    cases a; cases b
    simp only at h1 h2 h3 h4 h5 h6 h7 h8
    rw [h1, h2, h3, h4, h5, h6, h7, h8]
  · intro s; cases s
    · exact Or.inl rfl
    · exact Or.inr (Or.inl rfl)
    · exact Or.inr (Or.inr (Or.inl rfl))
    · exact Or.inr (Or.inr (Or.inr rfl))
  · intro cd bound now s cs a h
    exact mem_mergeAll cd now cs s a (mem_of_mem_trim bound (mergeAll cd now s cs) a h)
  · intro s n b h
    have hm : b ∈ s.alerts.map (setAck n) := h
    rcases List.mem_map.mp hm with ⟨a, ha, hab⟩
    refine ⟨a, ha, ?_⟩
    rw [← hab]
    by_cases hid : a.id = n
    · simp [setAck, hid]
    · simp [setAck, hid]

theorem alertFieldModel_witness :
    mkAlert 0 5 exampleCandidate ∈ emptyStore.alerts ∨
      ((mkAlert 0 5 exampleCandidate).acknowledged = false ∧
        (mkAlert 0 5 exampleCandidate).timestamp = 5) :=
  alertFieldModel.2.2.2.1 (fun _ => 300) 100 5 emptyStore [exampleCandidate]
    (mkAlert 0 5 exampleCandidate) (by decide)

theorem hasUnexpired_false_forall (cd : String → Nat) (now : Nat)
    (s : AlertStore) (c : Candidate) (hf : hasUnexpired cd now s c = false) :
    ∀ x ∈ s.alerts,
      x.vehicle_id = c.vehicle_id → x.alert_type = c.alert_type →
        x.timestamp + cd c.alert_type ≤ now := by
  intro x hx hv ht
  by_contra hcon
  push_neg at hcon
  have htrue : hasUnexpired cd now s c = true := by
    unfold hasUnexpired
    rw [List.any_eq_true]
    exact ⟨x, hx, by simp [hv, ht, hcon]⟩
  rw [htrue] at hf
  exact Bool.noConfusion hf

theorem mergeOne_respecting (cd : String → Nat) (now : Nat)
    (s : AlertStore) (c : Candidate) (h : cooldownRespecting cd s.alerts) :
    cooldownRespecting cd (mergeOne cd now s c).alerts := by
  rcases mergeOne_cases cd now s c with hc | ⟨hf, hc⟩
  · rw [hc]; exact h
  · rw [hc]
    unfold cooldownRespecting
    rw [List.pairwise_append]
    refine ⟨h, List.pairwise_singleton _ _, ?_⟩
    intro a ha b hb
    have hbeq : b = mkAlert s.next_id now c := by simpa using hb
    rw [hbeq]
    intro hv ht
    simp only [mkAlert] at hv ht ⊢
    have := hasUnexpired_false_forall cd now s c hf a ha hv ht
    rw [ht]
    exact this

theorem mergeAll_respecting (cd : String → Nat) (now : Nat) :
    ∀ (cs : List Candidate) (s : AlertStore),
      cooldownRespecting cd s.alerts →
      cooldownRespecting cd (mergeAll cd now s cs).alerts := by
  intro cs
  induction cs with
  | nil => intro s h; exact h
  | cons c cs ih =>
    intro s h
    rw [mergeAll, List.foldl_cons]
    exact ih (mergeOne cd now s c) (mergeOne_respecting cd now s c h)

theorem trim_respecting (cd : String → Nat) (bound : Nat) (s : AlertStore)
    (h : cooldownRespecting cd s.alerts) :
    cooldownRespecting cd (trimStore bound s).alerts :=
  List.Pairwise.sublist (s.alerts.drop_sublist (s.alerts.length - bound)) h

theorem mergeOne_unexpired_drop (cd : String → Nat) (now : Nat)
    (s : AlertStore) (c : Candidate)
    (h : ∃ a ∈ s.alerts, a.vehicle_id = c.vehicle_id ∧
      a.alert_type = c.alert_type ∧ now < a.timestamp + cd c.alert_type) :
    mergeOne cd now s c = s := by
  rcases h with ⟨a, ha, hv, ht, hlt⟩
  unfold mergeOne
  rw [if_pos]
  unfold hasUnexpired
  rw [List.any_eq_true]
  exact ⟨a, ha, by simp [hv, ht, hlt]⟩

theorem trim_eq_self (bound : Nat) (s : AlertStore)
    (h : s.alerts.length ≤ bound) : trimStore bound s = s := by
  unfold trimStore
  rw [Nat.sub_eq_zero_of_le h, List.drop_zero]

theorem repeatMerge_unexpired (cd : String → Nat) (bound : Nat)
    (c : Candidate) (t0 : Nat) :
    ∀ (ts : List Nat) (s : AlertStore),
      s.alerts.length ≤ bound →
      (∃ a ∈ s.alerts, a.vehicle_id = c.vehicle_id ∧
        a.alert_type = c.alert_type ∧ a.timestamp = t0) →
      (∀ t ∈ ts, t < t0 + cd c.alert_type) →
      repeatMerge cd bound c s ts = s := by
  intro ts
  induction ts with
  | nil => intro s _ _ _; rfl
  | cons t ts ih =>
    intro s hlen hex hts
    have hstep : AlertStore.merge cd bound t s [c] = s := by
      unfold AlertStore.merge mergeAll
      rw [List.foldl_cons, List.foldl_nil]
      rw [mergeOne_unexpired_drop cd t s c ?hdrop]
      · exact trim_eq_self bound s hlen
      case hdrop =>
        rcases hex with ⟨a, ha, hv, htag, hts0⟩
        exact ⟨a, ha, hv, htag,
          by rw [hts0]; exact hts t (List.mem_cons_self t ts)⟩
    rw [repeatMerge, List.foldl_cons]
    show repeatMerge cd bound c (AlertStore.merge cd bound t s [c]) ts = s
    rw [hstep]
    exact ih s hlen hex fun u hu => hts u (List.mem_cons_of_mem t hu)

/-- C2: the Alert Store merge keeps the cooldown invariant: no two stored
alerts with the same (vehicle id or sentinel, rule id) key were created
within the rule's cooldown window; a candidate arriving while an unexpired
same-key alert exists is dropped, so a vehicle continuously exceeding the
speed threshold across a run of consecutive ticks within one cooldown
window yields exactly one alert, not one per tick; the default cooldown is
5 minutes (300 seconds). -/
theorem cooldownDeduplication :
    (∀ (cd : String → Nat) (bound now : Nat) (s : AlertStore)
       (cs : List Candidate),
       cooldownRespecting cd s.alerts →
       cooldownRespecting cd (AlertStore.merge cd bound now s cs).alerts) ∧
    (∀ (cd : String → Nat) (bound : Nat) (c : Candidate) (t0 : Nat)
       (ts : List Nat),
       1 ≤ bound → (∀ t ∈ ts, t < t0 + cd c.alert_type) →
       (repeatMerge cd bound c emptyStore (t0 :: ts)).alerts.countP
           (fun a => a.vehicle_id == c.vehicle_id && a.alert_type == c.alert_type)
         = 1) ∧
    cooldownOf defaultConfig "speed_anomaly" = 300 := by
  refine ⟨?_, ?_, rfl⟩
  · intro cd bound now s cs h
    exact trim_respecting cd bound (mergeAll cd now s cs)
      (mergeAll_respecting cd now cs s h)
  · intro cd bound c t0 ts hb hts
    have hfirst : AlertStore.merge cd bound t0 emptyStore [c]
        = { alerts := [mkAlert 0 t0 c], next_id := 1 } := by
      unfold AlertStore.merge mergeAll
      rw [List.foldl_cons, List.foldl_nil]
      have h1 : mergeOne cd t0 emptyStore c
          = { alerts := [mkAlert 0 t0 c], next_id := 1 } := by
        unfold mergeOne hasUnexpired emptyStore
        simp
      rw [h1]
      exact trim_eq_self bound _ (by simpa using hb)
    have hrest : repeatMerge cd bound c emptyStore (t0 :: ts)
        = { alerts := [mkAlert 0 t0 c], next_id := 1 } := by
      rw [repeatMerge, List.foldl_cons]
      show repeatMerge cd bound c (AlertStore.merge cd bound t0 emptyStore [c]) ts = _
      rw [hfirst]
      exact repeatMerge_unexpired cd bound c t0 ts _ (by simpa using hb)
        ⟨mkAlert 0 t0 c, by simp, rfl, rfl, rfl⟩ hts
    rw [hrest]
    simp [mkAlert]

theorem cooldownDeduplication_witness :
    cooldownRespecting (fun _ => 300)
        (AlertStore.merge (fun _ => 300) 100 10 emptyStore [exampleCandidate]).alerts ∧
      (repeatMerge (fun _ => 300) 100 exampleCandidate emptyStore
          [10, 20, 30]).alerts.countP
          (fun a => a.vehicle_id == exampleCandidate.vehicle_id &&
            a.alert_type == exampleCandidate.alert_type) = 1 :=
  ⟨cooldownDeduplication.1 (fun _ => 300) 100 10 emptyStore [exampleCandidate]
      List.Pairwise.nil,
   cooldownDeduplication.2.1 (fun _ => 300) 100 exampleCandidate 10 [20, 30]
      (by norm_num) (by decide)⟩

theorem mergeOne_time (cd : String → Nat) (now : Nat) (s : AlertStore)
    (c : Candidate) (hb : ∀ a ∈ s.alerts, a.timestamp ≤ now)
    (hs : s.alerts.Pairwise (fun a b => a.timestamp ≤ b.timestamp)) :
    (∀ a ∈ (mergeOne cd now s c).alerts, a.timestamp ≤ now) ∧
      (mergeOne cd now s c).alerts.Pairwise (fun a b => a.timestamp ≤ b.timestamp) := by
  rcases mergeOne_cases cd now s c with hc | ⟨_, hc⟩
  · rw [hc]; exact ⟨hb, hs⟩
  · rw [hc]
    constructor
    · intro a ha
      rcases List.mem_append.mp ha with hold | hnew
      · exact hb a hold
      · have : a = mkAlert s.next_id now c := by simpa using hnew
        rw [this]
        exact Nat.le_refl now
    · rw [List.pairwise_append]
      refine ⟨hs, List.pairwise_singleton _ _, ?_⟩
      intro a ha b hbm
      have : b = mkAlert s.next_id now c := by simpa using hbm
      rw [this]
      exact hb a ha

theorem mergeAll_time (cd : String → Nat) (now : Nat) :
    ∀ (cs : List Candidate) (s : AlertStore),
      (∀ a ∈ s.alerts, a.timestamp ≤ now) →
      s.alerts.Pairwise (fun a b => a.timestamp ≤ b.timestamp) →
      (∀ a ∈ (mergeAll cd now s cs).alerts, a.timestamp ≤ now) ∧
        (mergeAll cd now s cs).alerts.Pairwise
          (fun a b => a.timestamp ≤ b.timestamp) := by
  intro cs
  induction cs with
  | nil => intro s hb hs; exact ⟨hb, hs⟩
  | cons c cs ih =>
    intro s hb hs
    rw [mergeAll, List.foldl_cons]
    have h1 := mergeOne_time cd now s c hb hs
    exact ih (mergeOne cd now s c) h1.1 h1.2

/-- C3: after every merge the Alert Store holds at most its bound of alerts
(and list() returns at most that many), and the trim evicts strictly the
oldest entries first: on a time-ordered store the pre-trim contents split as
evicted-prefix plus kept-suffix with every evicted alert no newer than every
kept one, so the survivors are always the most recent alerts. -/
theorem storeBoundEviction :
    ∀ (cd : String → Nat) (bound now : Nat) (s : AlertStore)
      (cs : List Candidate),
      s.alerts.Pairwise (fun a b => a.timestamp ≤ b.timestamp) →
      (∀ a ∈ s.alerts, a.timestamp ≤ now) →
      (AlertStore.merge cd bound now s cs).alerts.length ≤ bound ∧
      (AlertStore.list (AlertStore.merge cd bound now s cs)).length ≤ bound ∧
      ∃ dropped,
        (mergeAll cd now s cs).alerts
            = dropped ++ (AlertStore.merge cd bound now s cs).alerts ∧
          ∀ a ∈ dropped, ∀ b ∈ (AlertStore.merge cd bound now s cs).alerts,
            a.timestamp ≤ b.timestamp := by
  intro cd bound now s cs hs hb
  have hsorted := (mergeAll_time cd now cs s hb hs).2
  have halerts : (AlertStore.merge cd bound now s cs).alerts
      = (mergeAll cd now s cs).alerts.drop
          ((mergeAll cd now s cs).alerts.length - bound) := rfl
  have hlen : (AlertStore.merge cd bound now s cs).alerts.length ≤ bound := by
    rw [halerts, List.length_drop]
    omega
  refine ⟨hlen, by simpa [AlertStore.list] using hlen, ?_⟩
  refine ⟨(mergeAll cd now s cs).alerts.take
      ((mergeAll cd now s cs).alerts.length - bound), ?_, ?_⟩
  · rw [halerts, List.take_append_drop]
  · intro a ha b hbm
    rw [halerts] at hbm
    have hp : ((mergeAll cd now s cs).alerts.take
          ((mergeAll cd now s cs).alerts.length - bound) ++
        (mergeAll cd now s cs).alerts.drop
          ((mergeAll cd now s cs).alerts.length - bound)).Pairwise
        (fun a b => a.timestamp ≤ b.timestamp) := by
      rw [List.take_append_drop]
      exact hsorted
    exact (List.pairwise_append.mp hp).2.2 a ha b hbm

theorem storeBoundEviction_witness :
    (AlertStore.merge (fun _ => 300) 100 10 emptyStore
        [exampleCandidate]).alerts.length ≤ 100 ∧
      (AlertStore.list (AlertStore.merge (fun _ => 300) 100 10 emptyStore
        [exampleCandidate])).length ≤ 100 :=
  ⟨(storeBoundEviction (fun _ => 300) 100 10 emptyStore [exampleCandidate]
      List.Pairwise.nil (by simp [emptyStore])).1,
   (storeBoundEviction (fun _ => 300) 100 10 emptyStore [exampleCandidate]
      List.Pairwise.nil (by simp [emptyStore])).2.1⟩

theorem speedCandidate_vid (t : Rat) (v : VehicleSnapshot) (c : Candidate)
    (h : speedCandidate t v = some c) : c.vehicle_id = v.id := by
  unfold speedCandidate at h
  rcases hv : v.position with _ | pos
  · rw [hv] at h; simp at h
  · rw [hv] at h
    simp only [Option.some_bind] at h
    rcases Option.map_eq_some'.mp h with ⟨sev, _, hc⟩
    rw [← hc]

theorem speed_count_zero (t : Rat) :
    ∀ (vs : List VehicleSnapshot) (vid : String),
      (∀ w ∈ vs, w.id ≠ vid) →
      (vs.filterMap (speedCandidate t)).countP
        (fun c => c.vehicle_id == vid) = 0 := by
  intro vs
  induction vs with
  | nil => intro vid _; rfl
  | cons w ws ih =>
    intro vid h
    have htail := ih vid fun u hu => h u (List.mem_cons_of_mem w hu)
    cases hw : speedCandidate t w with
    | none => rw [List.filterMap_cons_none hw]; exact htail
    | some c =>
      rw [List.filterMap_cons_some hw, List.countP_cons]
      have hne : (c.vehicle_id == vid) = false := by
        rw [speedCandidate_vid t w c hw]
        exact beq_eq_false_iff_ne.mpr (h w (List.mem_cons_self w ws))
      rw [hne, htail]
      simp

theorem speed_count_one (t : Rat) :
    ∀ (vs : List VehicleSnapshot) (v : VehicleSnapshot),
      (vs.map VehicleSnapshot.id).Nodup → v ∈ vs →
      (speedCandidate t v).isSome →
      (vs.filterMap (speedCandidate t)).countP
        (fun c => c.vehicle_id == v.id) = 1 := by
  intro vs
  induction vs with
  | nil => intro v _ hmem _; simp at hmem
  | cons w ws ih =>
    intro v hnd hmem hsome
    rw [List.map_cons, List.nodup_cons] at hnd
    rcases List.mem_cons.mp hmem with hv | hv
    · subst hv
      obtain ⟨c, hc⟩ := Option.isSome_iff_exists.mp hsome
      rw [List.filterMap_cons_some hc, List.countP_cons]
      have heq : (c.vehicle_id == v.id) = true :=
        beq_iff_eq.mpr (speedCandidate_vid t v c hc)
      have hzero := speed_count_zero t ws v.id fun u hu hueq => by
        exact hnd.1 (hueq ▸ List.mem_map_of_mem VehicleSnapshot.id hu)
      rw [heq, hzero]
      simp
    · have hwv : w.id ≠ v.id := fun heq => by
        exact hnd.1 (heq ▸ List.mem_map_of_mem VehicleSnapshot.id hv)
      cases hw : speedCandidate t w with
      | none =>
        rw [List.filterMap_cons_none hw]
        exact ih v hnd.2 hv hsome
      | some c =>
        rw [List.filterMap_cons_some hw, List.countP_cons]
        have hne : (c.vehicle_id == v.id) = false := by
          rw [speedCandidate_vid t w c hw]
          exact beq_eq_false_iff_ne.mpr hwv
        rw [hne, ih v hnd.2 hv hsome]
        simp

theorem speedSeverity_mono (t s1 s2 : Rat) (sev1 sev2 : AlertSeverity)
    (hle : s1 ≤ s2) (h1 : speedSeverity t s1 = some sev1)
    (h2 : speedSeverity t s2 = some sev2) : sev1.rank ≤ sev2.rank := by
  unfold speedSeverity at h1 h2
  split_ifs at h1 h2 <;>
    simp only [Option.some.injEq] at h1 h2 <;>
    subst h1 <;> subst h2 <;>
    first
      | decide
      | (exfalso; linarith)

/-- C4: the speed-anomaly rule fires exactly once per offending vehicle per
tick, its severity is low at the threshold, medium at threshold plus 20
percent, high at plus 50 percent and critical at plus 100 percent, severity
is monotone in speed (in particular a vehicle at plus 100 percent receives
severity at least that of a vehicle at plus 20 percent in the same tick),
and a snapshot with one vehicle at speed 165 under threshold 80 yields
exactly one critical speed alert referencing that vehicle. -/
theorem speedRuleSeverity :
    (∀ (t s1 s2 : Rat) (sev1 sev2 : AlertSeverity), s1 ≤ s2 →
       speedSeverity t s1 = some sev1 → speedSeverity t s2 = some sev2 →
       sev1.rank ≤ sev2.rank) ∧
    (∀ t : Rat, 0 < t →
       speedSeverity t t = some .low ∧
       speedSeverity t (6*t/5) = some .medium ∧
       speedSeverity t (3*t/2) = some .high ∧
       speedSeverity t (2*t) = some .critical) ∧
    (∀ (t : Rat) (sev1 sev2 : AlertSeverity), 0 < t →
       speedSeverity t (6*t/5) = some sev1 →
       speedSeverity t (2*t) = some sev2 → sev1.rank ≤ sev2.rank) ∧
    (∀ (cfg : RuleConfig) (vs : List VehicleSnapshot) (v : VehicleSnapshot),
       cfg.enabled = true → (vs.map VehicleSnapshot.id).Nodup → v ∈ vs →
       (speedCandidate cfg.threshold v).isSome →
       (speedRule cfg vs).countP (fun c => c.vehicle_id == v.id) = 1) ∧
    (evaluateRules defaultConfig [v165] [] scenarioPatterns
      = [{ vehicle_id := "v1", vehicle_name := "Unit 1",
           alert_type := "speed_anomaly", severity := .critical,
           message := "Speed anomaly: Unit 1" }]) := by
  refine ⟨speedSeverity_mono, ?_, ?_, ?_, ?_⟩
  · intro t ht
    unfold speedSeverity
    refine ⟨?_, ?_, ?_, ?_⟩ <;> split_ifs <;> first | rfl | linarith
  · intro t sev1 sev2 ht h1 h2
    exact speedSeverity_mono t (6*t/5) (2*t) sev1 sev2 (by linarith) h1 h2
  · intro cfg vs v hen hnd hmem hsome
    unfold speedRule
    rw [if_pos hen]
    exact speed_count_one cfg.threshold vs v hnd hmem hsome
  · norm_num [evaluateRules, speedRule, idleRule, offrouteRule, afterhoursRule,
      patternRule, imbalanceRule, speedCandidate, idleCandidate,
      offrouteCandidate, afterhoursCandidate, imbalanceCandidate, speedSeverity,
      sortLE, insertLE, candLE, ruleIndex, AlertSeverity.rank, activeFraction,
      activeCount, countAtLocation, idleDuration, ratAbs, inNightWindow, hourOf,
      defaultConfig, scenarioPatterns, v165, List.filterMap]
    rfl

theorem speedRuleSeverity_witness :
    speedSeverity 80 80 = some .low ∧
      speedSeverity 80 96 = some .medium ∧
      speedSeverity 80 120 = some .high ∧
      speedSeverity 80 160 = some .critical ∧
      (speedRule defaultConfig.speed [v165]).countP
        (fun c => c.vehicle_id == v165.id) = 1 := by
  have hbands := speedRuleSeverity.2.1 80 (by norm_num)
  refine ⟨hbands.1, ?_, ?_, ?_, ?_⟩
  · have := hbands.2.1; norm_num at this ⊢; exact this
  · have := hbands.2.2.1; norm_num at this ⊢; exact this
  · have := hbands.2.2.2; norm_num at this ⊢; exact this
  · exact speedRuleSeverity.2.2.2.1 defaultConfig.speed [v165] v165 rfl
      (by simp [v165]) (List.mem_singleton.mpr rfl)
      (by norm_num [speedCandidate, speedSeverity, defaultConfig, v165])

end FleetPulse
